import Mathlib

/-!
Verification of the cm-worker job-lifecycle loop (src/cm_worker/worker.py).

The Python module is shallowly embedded: the shared redis store becomes an
explicit `Store` value (list keyspace for queues, one field per hash table,
plus the two append-only streams), the per-process mutable state becomes
`WState`, and each method of `Worker` becomes a state-passing function.
Serialized JSON payloads are modelled structurally as `Json` values.
Exceptions are modelled with `Except` over the `PyExc` taxonomy; the
`try/except` dispatch of `Worker.start` becomes `except_dispatch`.
Interference by other processes during the handler call (the blind window)
is modelled by an explicit store transformer `env` applied between the
handler call and the post-handler lock check.
-/

namespace CmWorker

/-- Structured JSON values, modelling the payloads the worker serializes
with json.dumps and parses with json.loads. -/
inductive Json where
  | null
  | bool (b : Bool)
  | num (n : Int)
  | str (s : String)
  | arr (elems : List Json)
  | obj (fields : List (String × Json))

/-- The exception classes that can cross the try block of the main loop:
LockError (raised by check_lock when the stored owner differs), a failed
assert statement, KeyboardInterrupt, and any other Exception carrying its
message str(e). -/
inductive PyExc where
  | lockError
  | assertionError
  | keyboardInterrupt
  | exc (msg : String)
deriving DecidableEq

/-- Python str(e) for the exceptions above: LockError() and AssertionError()
are raised with no argument, so their str is empty; a generic exception
shows its message. -/
def pyStr : PyExc → String
  | .exc msg => msg
  | _ => ""

/-- Python string interpolation of the job_id field, which is either a
string or None: f-strings render None as the four characters None. -/
def pyStrOpt : Option String → String
  | none => "None"
  | some s => s

/-- Model of traceback.format_exc(): an opaque rendering of the failure
detail, determined by the exception. -/
def format_exc (e : PyExc) : String :=
  "Traceback (most recent call last): " ++ pyStr e

/-- json.dumps renders a None job_id as JSON null and a string as a JSON
string. -/
def jsonOfOpt : Option String → Json
  | none => Json.null
  | some s => Json.str s

/-- Field lookup in a JSON object, used to project serialized records. -/
def jsonGet : Json → String → Option Json
  | Json.obj fields, k => fields.lookup k
  | _, _ => none

/-- redis HSET on a hash modelled as a finite map. -/
def hset {α : Type} (h : String → Option α) (k : String) (v : α) :
    String → Option α :=
  fun x => if x = k then some v else h x

/-- redis HDEL on a hash modelled as a finite map. -/
def hdel {α : Type} (h : String → Option α) (k : String) :
    String → Option α :=
  fun x => if x = k then none else h x

/-- Pointwise update of the redis list keyspace. -/
def lset (ls : String → List String) (k : String) (v : List String) :
    String → List String :=
  fun x => if x = k then v else ls x

/-- Python str.split with a single character separator, as a structural
recursion on the character list (empty input yields one empty group, and
each separator occurrence starts a new group, exactly as in Python). -/
def pySplitChars (sep : Char) : List Char → List (List Char)
  | [] => [[]]
  | c :: rest =>
    let r := pySplitChars sep rest
    if c = sep then [] :: r
    else
      match r with
      | [] => [[c]]
      | g :: gs => (c :: g) :: gs

/-- Python str.split lifted to strings. -/
def pySplit (s : String) (sep : Char) : List String :=
  (pySplitChars sep s.data).map fun cs => String.mk cs

/-- from_queue.decode().split(sep)[1] for sep a colon: extracts the
pipeline name from a queue key such as queue:concept-map:pending. -/
def pipelineFromQueue (q : String) : String :=
  ((pySplit q ':').get? 1).getD ""

/-- The shared redis store, split by the logical tables the worker touches:
the list keyspace (pending and processing queues, keyed by full key name),
the hashes locks, last_updates, jobs and files, and the two append-only
streams queue:done and log. Stream entries are kept in parsed form. -/
structure Store where
  lists : String → List String
  locks : String → Option String
  last_updates : String → Option String
  jobs : String → Option Json
  files : String → Option String
  done : List Json
  log : List Json

/-- Per-process mutable state of a Worker: the store connection plus
self.job_id, self.log_queue and self.is_exiting. -/
structure WState where
  store : Store
  job_id : Option String
  log_queue : List String
  is_exiting : Bool

/-- Immutable worker configuration: self.worker_id and the pipeline
registry built by add_pipeline, in registration order. -/
structure Worker where
  worker_id : String
  pipelines : List (String × (Json → Except PyExc Json))

/-- State right after Worker.__init__: no current job, empty log queue,
exit flag unset. -/
def init_wstate (s : Store) : WState :=
  { store := s, job_id := none, log_queue := [], is_exiting := false }

/-- self.log_queue.put(msg). -/
def log_put (st : WState) (msg : String) : WState :=
  { st with log_queue := st.log_queue ++ [msg] }

/-- Worker.send_result: rpush the record onto queue:done. -/
def send_result (st : WState) (data : Json) : WState :=
  { st with store := { st.store with done := st.store.done ++ [data] } }

/-- Worker.check_lock: a no-op success when self.job_id is None; otherwise
hget the lock record. The source asserts the reply is bytes, so a missing
record raises AssertionError (not LockError); a present owner different
from self.worker_id raises LockError. -/
def check_lock (worker_id : String) (job_id : Option String)
    (locks : String → Option String) : Except PyExc Unit :=
  match job_id with
  | none => .ok ()
  | some j =>
    match locks j with
    | none => .error .assertionError
    | some lock => if lock ≠ worker_id then .error .lockError else .ok ()

/-- Worker.clean_up: a no-op when self.job_id is None; otherwise lrem (count
0, hence every matching occurrence) from the hard-coded key
queue:concept-map:processing, hdel the last_updates, locks, jobs and files
records, and finally reset self.job_id to None. -/
def clean_up (st : WState) : WState :=
  match st.job_id with
  | none => st
  | some j =>
    { st with
      store := { st.store with
        lists := lset st.store.lists "queue:concept-map:processing"
          ((st.store.lists "queue:concept-map:processing").filter
            (fun x => x ≠ j)),
        last_updates := hdel st.store.last_updates j,
        locks := hdel st.store.locks j,
        jobs := hdel st.store.jobs j,
        files := hdel st.store.files j },
      job_id := none }

/-- Outcome of one pass through the body of the while loop in
Worker.start. -/
inductive Outcome where
  | reported
  | lockLost
  | errored
  | exited
  | crashed
deriving DecidableEq

/-- Whether the while loop runs another iteration after the given outcome:
sys.exit and an uncaught AssertionError terminate it, the three handled
paths fall through to the top of the loop. -/
def loop_continues : Outcome → Bool
  | .exited => false
  | .crashed => false
  | _ => true

/-- The value that reaches the except dispatch: the handler result if both
the handler call and the subsequent check_lock succeed, otherwise the first
exception raised inside the try block. -/
def dispatch_result (w : Worker) (hres : Except PyExc Json) (st : WState) :
    Except PyExc Json :=
  match hres with
  | .error e => .error e
  | .ok result =>
    match check_lock w.worker_id st.job_id st.store.locks with
    | .error e => .error e
    | .ok _ => .ok result

/-- The tail of the try block of Worker.start together with its except
clauses, starting from the dispatched value. Success: json.dumps the
job_id/result record, send_result, clean_up, then enqueue the completion
message (formatted after clean_up has reset self.job_id). LockError: only
the lost-lock message is enqueued. KeyboardInterrupt: sys.exit. Any other
exception: send the job_id/error record, enqueue the error message and the
traceback, then clean_up. -/
def except_dispatch (pipeline : String) (d : Except PyExc Json)
    (st : WState) : Outcome × WState :=
  match d with
  | .ok result =>
    let data := Json.obj [("job_id", jsonOfOpt st.job_id), ("result", result)]
    let st := send_result st data
    let st := clean_up st
    let st := log_put st
      ("CourseMapper Worker: Finished processing concept-map job " ++
        pyStrOpt st.job_id)
    (.reported, st)
  | .error PyExc.lockError =>
    (.lockLost,
      log_put st
        ("CourseMapper Worker: Lost lock for job " ++ pyStrOpt st.job_id))
  | .error PyExc.keyboardInterrupt => (.exited, st)
  | .error e =>
    let data :=
      Json.obj [("job_id", jsonOfOpt st.job_id), ("error", Json.str (pyStr e))]
    let st := send_result st data
    let st := log_put st
      ("CourseMapper Worker: Error processing " ++ pipeline ++ " job " ++
        pyStrOpt st.job_id)
    let st := log_put st (format_exc e)
    let st := clean_up st
    (.errored, st)

/-- The post-handler section of one loop iteration: the lock re-check on
the success path followed by the except dispatch. -/
def post_handler (w : Worker) (pipeline : String) (hres : Except PyExc Json)
    (st : WState) : Outcome × WState :=
  except_dispatch pipeline (dispatch_result w hres st) st

/-- redis BRPOP over a key list: the first listed key holding a nonempty
list yields its rightmost element; None models an indefinite block because
every queue is empty. -/
def brpop (lists : String → List String) :
    List String → Option (String × String)
  | [] => none
  | q :: rest =>
    match (lists q).getLast? with
    | some v => some (q, v)
    | none => brpop lists rest

/-- One full pass through the body of the while loop in Worker.start, for a
claim that succeeds: brpop across every registered pipelines pending queue,
record the claimed job as self.job_id, lpush it onto that pipelines
processing queue, enqueue the received message, hget and parse the job
record (a missing record fails the assert and the AssertionError escapes
the loop: crashed), hset the lock record to self.worker_id, enqueue the
processing message, run the registered handler (a missing registry entry
raises KeyError inside the try block), let the environment act on the store
for the duration of the handler call, then run the post-handler section.
Returns none when every pending queue is empty (the blocking pop never
returns). -/
def loop_iter (w : Worker) (env : Store → Store) (st : WState) :
    Option (Outcome × WState) :=
  let queues := w.pipelines.map (fun p => "queue:" ++ p.1 ++ ":pending")
  match brpop st.store.lists queues with
  | none => none
  | some (from_queue, popped) =>
    let pipeline := pipelineFromQueue from_queue
    let st := { st with store := { st.store with
      lists := lset st.store.lists from_queue
        ((st.store.lists from_queue).dropLast) } }
    let st := { st with job_id := some popped }
    let st := { st with store := { st.store with
      lists := lset st.store.lists ("queue:" ++ pipeline ++ ":processing")
        (popped :: st.store.lists ("queue:" ++ pipeline ++ ":processing")) } }
    let st := log_put st
      ("CourseMapper Worker: Received concept-map job for " ++
        pyStrOpt st.job_id ++ "...")
    match st.store.jobs popped with
    | none => some (.crashed, st)
    | some job =>
      let st := { st with store := { st.store with
        locks := hset st.store.locks popped w.worker_id } }
      let st := log_put st
        ("CourseMapper Worker: Processing concept-map job " ++
          pyStrOpt st.job_id ++ "...")
      let hres : Except PyExc Json :=
        match w.pipelines.lookup pipeline with
        | none => .error (.exc ("\x27" ++ pipeline ++ "\x27"))
        | some handler => handler job
      let st := { st with store := env st.store }
      some (post_handler w pipeline hres st)

/-- The argument Worker.start passes to start_updater_thread: the value of
self.job_id at that point of start, before the first claim. -/
def start_updater_arg (st : WState) : Option String := st.job_id

/-- The sequence of hset last_updates writes the status_updater loop body
would perform: every iteration writes the current timestamp under the
job_id parameter captured once when the thread was started (the closure
never re-reads self.job_id). Each pair is (key, timestamp). -/
def status_updater_writes (captured_job_id : Option String)
    (timestamps : List String) : List (Option String × String) :=
  timestamps.map (fun ts => (captured_job_id, ts))

/-- The serialized record the log thread appends for one drained message:
json.dumps of worker_id, the job_id read at drain time, the timestamp and
the message. -/
def log_record (worker_id : String) (job_id : Option String)
    (timestamp message : String) : Json :=
  Json.obj [("worker_id", Json.str worker_id), ("job_id", jsonOfOpt job_id),
    ("timestamp", Json.str timestamp), ("message", Json.str message)]

/-- The log_generator loop of start_log_thread draining the in-process
queue: each get returns the next pending message in FIFO order, which is
serialized and rpushed onto the log stream. The context function supplies
the job_id and timestamp observed when the i-th message is drained. The
run covers a drain during which the exit flag stays unset and every store
append succeeds. -/
def log_generator_run (worker_id : String)
    (ctx : Nat → Option String × String) :
    Nat → List String → List Json → List Json
  | _, [], log => log
  | i, m :: rest, log =>
    log_generator_run worker_id ctx (i + 1) rest
      (log ++ [log_record worker_id (ctx i).1 (ctx i).2 m])

/-- A handler that returns JSON null, used as a concrete pipeline
function. -/
def okHandler : Json → Except PyExc Json := fun _ => .ok Json.null

/-- Concrete store: one job j1 pending on the pipeline named other, with
its job record present. -/
def exStoreOther : Store :=
  { lists := fun k => if k = "queue:other:pending" then ["j1"] else []
    locks := fun _ => none
    last_updates := fun _ => none
    jobs := fun k => if k = "j1" then some (Json.obj [("x", Json.num 1)]) else none
    files := fun _ => none
    done := []
    log := [] }

/-- Concrete worker registered for the single pipeline named other. -/
def exWorkerOther : Worker :=
  { worker_id := "w1", pipelines := [("other", okHandler)] }

/-- Concrete store: one job j1 pending on the concept-map pipeline. -/
def exStoreCM : Store :=
  { lists := fun k => if k = "queue:concept-map:pending" then ["j1"] else []
    locks := fun _ => none
    last_updates := fun _ => none
    jobs := fun k => if k = "j1" then some (Json.obj [("x", Json.num 1)]) else none
    files := fun _ => none
    done := []
    log := [] }

/-- Concrete worker registered for the concept-map pipeline. -/
def exWorkerCM : Worker :=
  { worker_id := "w1", pipelines := [("concept-map", okHandler)] }

/-- Environment that overwrites the lock record of the given job with a
different worker identity while the handler is running. -/
def lock_steal (thief j : String) : Store → Store :=
  fun s => { s with locks := hset s.locks j thief }

/-- Concrete mid-loop state: job j1 is the current job and its lock record
holds this workers identity w1, as right after the claim and lock steps. -/
def exHeld : WState :=
  { store :=
      { lists := fun k =>
          if k = "queue:concept-map:processing" then ["j1"] else []
        locks := fun k => if k = "j1" then some "w1" else none
        last_updates := fun k => if k = "j1" then some "100" else none
        jobs := fun k =>
          if k = "j1" then some (Json.obj [("x", Json.num 1)]) else none
        files := fun _ => none
        done := []
        log := [] }
    job_id := some "j1"
    log_queue := []
    is_exiting := false }

/-- Concrete mid-loop state like exHeld, except the lock record of j1 has
been overwritten by a different worker w2. -/
def exStolen : WState :=
  { exHeld with store := lock_steal "w2" "j1" exHeld.store }

/-- Cleanup is the identity when no job is tracked, exactly the None guard
of Worker.clean_up. -/
theorem clean_up_noop (st : WState) (h : st.job_id = none) : clean_up st = st := by
  simp [clean_up, h]

/-- Cleanup always leaves self.job_id reset to None. -/
theorem clean_up_job_id (st : WState) : (clean_up st).job_id = none := by
  cases h : st.job_id <;> simp [clean_up, h]

/-- On the success path with the lock still owned by this worker, the value
reaching the except dispatch is the handler result. -/
theorem dispatch_result_ok (w : Worker) (r : Json) (st : WState) (j : String)
    (hj : st.job_id = some j) (hl : st.store.locks j = some w.worker_id) :
    dispatch_result w (Except.ok r) st = Except.ok r := by
  simp [dispatch_result, check_lock, hj, hl]

/-- Claim C7: Cleanup is idempotent (a second invocation changes nothing),
it is a no-op when no job is currently tracked, and the state it produces
has the current JobID cleared, the reset being its final step after the
store removals. -/
theorem c7_cleanup_idempotent (st : WState) :
    clean_up (clean_up st) = clean_up st
    ∧ (st.job_id = none → clean_up st = st)
    ∧ (clean_up st).job_id = none :=
  ⟨clean_up_noop (clean_up st) (clean_up_job_id st),
    fun h => clean_up_noop st h,
    clean_up_job_id st⟩

/-- Witness for C7 at a concrete idle state. -/
theorem c7_cleanup_idempotent_witness :
    (init_wstate exStoreCM).job_id = none
    ∧ clean_up (init_wstate exStoreCM) = init_wstate exStoreCM :=
  ⟨rfl, (c7_cleanup_idempotent (init_wstate exStoreCM)).2.1 rfl⟩

/-- Claim C1 (counterexample): a job claimed from the pending queue of a
registered pipeline named other is processed successfully, yet after the
run — cleanup included — the JobID is still present in that pipelines
processing queue, because clean_up only ever touches
queue:concept-map:processing. -/
theorem c1_counterexample :
    ((loop_iter exWorkerOther id (init_wstate exStoreOther)).map (fun r => r.1)
        = some Outcome.reported)
    ∧ ((loop_iter exWorkerOther id (init_wstate exStoreOther)).map
        (fun r => r.2.store.lists "queue:other:processing") = some ["j1"])
    ∧ (["j1"] ≠ ([] : List String)) := by
  decide

/-- Claim C1 (amended): for a tracked job, cleanup removes the JobID from
the hard-coded concept-map processing queue (every matching occurrence),
deletes the liveness, lock, job-argument and file records, leaves every
other list key untouched, and clears the current JobID. -/
theorem c1_cleanup_records_removed (st : WState) (j : String)
    (h : st.job_id = some j) :
    ((clean_up st).store.lists "queue:concept-map:processing"
        = (st.store.lists "queue:concept-map:processing").filter
            (fun x => x ≠ j))
    ∧ j ∉ (clean_up st).store.lists "queue:concept-map:processing"
    ∧ (clean_up st).store.last_updates j = none
    ∧ (clean_up st).store.locks j = none
    ∧ (clean_up st).store.jobs j = none
    ∧ (clean_up st).store.files j = none
    ∧ (∀ q, q ≠ "queue:concept-map:processing" →
        (clean_up st).store.lists q = st.store.lists q)
    ∧ (clean_up st).job_id = none := by
  refine ⟨?_, ?_, ?_, ?_, ?_, ?_, ?_, ?_⟩ <;>
    simp [clean_up, h, lset, hdel, List.mem_filter]
  intro q hq
  simp [hq]

/-- Witness for the amended C1 at the concrete held state. -/
theorem c1_cleanup_records_removed_witness :
    exHeld.job_id = some "j1"
    ∧ (((clean_up exHeld).store.lists "queue:concept-map:processing"
          = (exHeld.store.lists "queue:concept-map:processing").filter
              (fun x => x ≠ "j1"))
      ∧ "j1" ∉ (clean_up exHeld).store.lists "queue:concept-map:processing"
      ∧ (clean_up exHeld).store.last_updates "j1" = none
      ∧ (clean_up exHeld).store.locks "j1" = none
      ∧ (clean_up exHeld).store.jobs "j1" = none
      ∧ (clean_up exHeld).store.files "j1" = none
      ∧ (∀ q, q ≠ "queue:concept-map:processing" →
          (clean_up exHeld).store.lists q = exHeld.store.lists q)
      ∧ (clean_up exHeld).job_id = none) :=
  ⟨rfl, c1_cleanup_records_removed exHeld "j1" rfl⟩

/-- Claim C2: the status_updater closure started by Worker.start is handed
the value of self.job_id as it was before the first claim (None), and every
liveness write it would perform is keyed by that captured value, never by
the JobID of a job held later. (The thread in fact dies even earlier: its
target declares a required parameter that Thread() never supplies.) -/
theorem c2_heartbeat_key_is_startup_value (s : Store) (tss : List String)
    (j : String) :
    start_updater_arg (init_wstate s) = none
    ∧ ∀ p ∈ status_updater_writes (start_updater_arg (init_wstate s)) tss,
        p.1 ≠ some j := by
  refine ⟨rfl, ?_⟩
  intro p hp
  simp only [status_updater_writes, start_updater_arg, init_wstate,
    List.mem_map] at hp
  obtain ⟨ts, _, rfl⟩ := hp
  simp

/-- Witness for C2: the single write of a one-iteration run is not keyed by
the held job j1. -/
theorem c2_heartbeat_key_is_startup_value_witness :
    ((none : Option String), "100").1 ≠ some "j1" :=
  (c2_heartbeat_key_is_startup_value exStoreCM ["100"] "j1").2
    ((none : Option String), "100") (by decide)

/-- Claim C3 (counterexample): with a job held but its lock record absent
from the store, check_lock raises AssertionError — the failed assert on the
hget reply — and not LockError, although the stored owner (absent) is not
this workers identity. -/
theorem c3_counterexample :
    check_lock "w1" (some "j1") (fun _ => none)
        = Except.error PyExc.assertionError
    ∧ PyExc.assertionError ≠ PyExc.lockError :=
  ⟨rfl, by decide⟩

/-- Claim C3 (amended): check_lock is a no-op success when no job is held;
with a job held it raises LockLost exactly when the stored owner is present
and differs from this workers identity, succeeds exactly when the stored
owner is this workers identity, and an absent owner makes it fail with an
assertion error instead of LockLost. -/
theorem c3_check_lock_characterization (wid : String)
    (locks : String → Option String) :
    check_lock wid none locks = Except.ok ()
    ∧ ∀ j,
      (check_lock wid (some j) locks = Except.error PyExc.lockError
          ↔ ∃ o, locks j = some o ∧ o ≠ wid)
      ∧ (check_lock wid (some j) locks = Except.ok () ↔ locks j = some wid)
      ∧ (locks j = none →
          check_lock wid (some j) locks = Except.error PyExc.assertionError) := by
  refine ⟨rfl, fun j => ?_⟩
  cases h : locks j with
  | none => simp [check_lock, h]
  | some o =>
    by_cases ho : o = wid
    · subst ho
      simp [check_lock, h]
    · simp [check_lock, h, ho]

/-- Witness for the amended C3: an absent owner at a concrete input yields
the assertion error. -/
theorem c3_check_lock_characterization_witness :
    (fun _ => (none : Option String)) "j1" = none
    ∧ check_lock "w1" (some "j1") (fun _ => (none : Option String))
        = Except.error PyExc.assertionError :=
  ⟨rfl,
    ((c3_check_lock_characterization "w1" (fun _ => none)).2 "j1").2.2 rfl⟩

/-- Claim C4: when the post-handler lock check fails with LockLost, the
worker pushes nothing to the results stream, changes no store record at
all (in particular deletes none), enqueues the lost-lock log message, and
the main loop continues with the next iteration. -/
theorem c4_lock_lost_no_report_no_cleanup (w : Worker) (pipeline : String)
    (r : Json) (st : WState)
    (h : check_lock w.worker_id st.job_id st.store.locks
        = Except.error PyExc.lockError) :
    (post_handler w pipeline (Except.ok r) st).1 = Outcome.lockLost
    ∧ (post_handler w pipeline (Except.ok r) st).2.store.done = st.store.done
    ∧ (post_handler w pipeline (Except.ok r) st).2.store = st.store
    ∧ (post_handler w pipeline (Except.ok r) st).2.job_id = st.job_id
    ∧ (post_handler w pipeline (Except.ok r) st).2.log_queue
        = st.log_queue
          ++ ["CourseMapper Worker: Lost lock for job " ++ pyStrOpt st.job_id]
    ∧ loop_continues (post_handler w pipeline (Except.ok r) st).1 = true := by
  have hd : dispatch_result w (Except.ok r) st
      = Except.error PyExc.lockError := by
    simp [dispatch_result, h]
  refine ⟨?_, ?_, ?_, ?_, ?_, ?_⟩ <;>
    simp [post_handler, hd, except_dispatch, log_put, loop_continues]

/-- Witness for C4 at the concrete state whose lock was overwritten by
another worker. -/
theorem c4_lock_lost_no_report_no_cleanup_witness :
    check_lock exWorkerCM.worker_id exStolen.job_id exStolen.store.locks
        = Except.error PyExc.lockError
    ∧ ((post_handler exWorkerCM "concept-map" (Except.ok Json.null)
          exStolen).1 = Outcome.lockLost
      ∧ (post_handler exWorkerCM "concept-map" (Except.ok Json.null)
          exStolen).2.store.done = exStolen.store.done
      ∧ (post_handler exWorkerCM "concept-map" (Except.ok Json.null)
          exStolen).2.store = exStolen.store
      ∧ (post_handler exWorkerCM "concept-map" (Except.ok Json.null)
          exStolen).2.job_id = exStolen.job_id
      ∧ (post_handler exWorkerCM "concept-map" (Except.ok Json.null)
          exStolen).2.log_queue
          = exStolen.log_queue
            ++ ["CourseMapper Worker: Lost lock for job "
                ++ pyStrOpt exStolen.job_id]
      ∧ loop_continues (post_handler exWorkerCM "concept-map"
          (Except.ok Json.null) exStolen).1 = true) :=
  ⟨rfl, c4_lock_lost_no_report_no_cleanup exWorkerCM "concept-map" Json.null
    exStolen rfl⟩

/-- Claim C5: on the success path (handler returned, lock still owned by
this worker) exactly one record holding job_id and the handler result is
appended to the done stream; the steps happen in source order — lock check
first (a failing check pushes nothing, see C4), then the push (the record
still carries the JobID), then cleanup (all per-job records deleted below),
then the completion log message (enqueued last, after cleanup) — and the
loop continues. -/
theorem c5_success_path_reports_once (w : Worker) (pipeline : String)
    (r : Json) (st : WState) (j : String)
    (hj : st.job_id = some j) (hl : st.store.locks j = some w.worker_id) :
    (post_handler w pipeline (Except.ok r) st).1 = Outcome.reported
    ∧ (post_handler w pipeline (Except.ok r) st).2.store.done
        = st.store.done ++ [Json.obj [("job_id", Json.str j), ("result", r)]]
    ∧ (post_handler w pipeline (Except.ok r) st).2.store.locks j = none
    ∧ (post_handler w pipeline (Except.ok r) st).2.store.last_updates j = none
    ∧ (post_handler w pipeline (Except.ok r) st).2.store.jobs j = none
    ∧ (post_handler w pipeline (Except.ok r) st).2.store.files j = none
    ∧ j ∉ (post_handler w pipeline (Except.ok r) st).2.store.lists
          "queue:concept-map:processing"
    ∧ (post_handler w pipeline (Except.ok r) st).2.log_queue
        = st.log_queue
          ++ ["CourseMapper Worker: Finished processing concept-map job None"]
    ∧ loop_continues (post_handler w pipeline (Except.ok r) st).1 = true := by
  have hd := dispatch_result_ok w r st j hj hl
  refine ⟨?_, ?_, ?_, ?_, ?_, ?_, ?_, ?_, ?_⟩ <;>
    simp [post_handler, hd, except_dispatch, send_result, clean_up, log_put,
      hj, jsonOfOpt, pyStrOpt, lset, hdel, loop_continues, List.mem_filter]

/-- Witness for C5: the scenario of the spec — job j1 whose handler
returned the object with field y set to 2. -/
theorem c5_success_path_reports_once_witness :
    exHeld.job_id = some "j1"
    ∧ exHeld.store.locks "j1" = some exWorkerCM.worker_id
    ∧ (post_handler exWorkerCM "concept-map"
        (Except.ok (Json.obj [("y", Json.num 2)])) exHeld).2.store.done
        = exHeld.store.done
          ++ [Json.obj [("job_id", Json.str "j1"),
              ("result", Json.obj [("y", Json.num 2)])]] :=
  ⟨rfl, rfl,
    (c5_success_path_reports_once exWorkerCM "concept-map"
      (Json.obj [("y", Json.num 2)]) exHeld "j1" rfl rfl).2.1⟩

/-- Claim C6: when the handler raises any failure other than LockError or
KeyboardInterrupt, exactly one record holding job_id and the error message
is appended to the done stream, the error log message and then the failure
detail are enqueued, full cleanup runs (all per-job hash records deleted,
concept-map processing entry removed, JobID cleared), and the loop
continues. -/
theorem c6_error_path_reports_and_cleans (w : Worker) (pipeline : String)
    (e : PyExc) (st : WState) (j : String)
    (hj : st.job_id = some j) (he1 : e ≠ PyExc.lockError)
    (he2 : e ≠ PyExc.keyboardInterrupt) :
    (post_handler w pipeline (Except.error e) st).1 = Outcome.errored
    ∧ (post_handler w pipeline (Except.error e) st).2.store.done
        = st.store.done
          ++ [Json.obj [("job_id", Json.str j), ("error", Json.str (pyStr e))]]
    ∧ (post_handler w pipeline (Except.error e) st).2.log_queue
        = st.log_queue
          ++ ["CourseMapper Worker: Error processing " ++ pipeline
                ++ " job " ++ j,
              format_exc e]
    ∧ (post_handler w pipeline (Except.error e) st).2.store.locks j = none
    ∧ (post_handler w pipeline (Except.error e) st).2.store.last_updates j
        = none
    ∧ (post_handler w pipeline (Except.error e) st).2.store.jobs j = none
    ∧ (post_handler w pipeline (Except.error e) st).2.store.files j = none
    ∧ j ∉ (post_handler w pipeline (Except.error e) st).2.store.lists
          "queue:concept-map:processing"
    ∧ (post_handler w pipeline (Except.error e) st).2.job_id = none
    ∧ loop_continues (post_handler w pipeline (Except.error e) st).1 = true := by
  have hd : dispatch_result w (Except.error e) st = Except.error e := rfl
  cases e with
  | lockError => exact absurd rfl he1
  | keyboardInterrupt => exact absurd rfl he2
  | assertionError =>
    refine ⟨?_, ?_, ?_, ?_, ?_, ?_, ?_, ?_, ?_, ?_⟩ <;>
      simp [post_handler, hd, except_dispatch, send_result, clean_up, log_put,
        hj, jsonOfOpt, pyStrOpt, lset, hdel, loop_continues, List.mem_filter]
  | exc msg =>
    refine ⟨?_, ?_, ?_, ?_, ?_, ?_, ?_, ?_, ?_, ?_⟩ <;>
      simp [post_handler, hd, except_dispatch, send_result, clean_up, log_put,
        hj, jsonOfOpt, pyStrOpt, lset, hdel, loop_continues, List.mem_filter]

/-- Witness for C6: the scenario of the spec — a handler error with message
boom on job j1 yields the job_id and error record. -/
theorem c6_error_path_reports_and_cleans_witness :
    exHeld.job_id = some "j1"
    ∧ PyExc.exc "boom" ≠ PyExc.lockError
    ∧ PyExc.exc "boom" ≠ PyExc.keyboardInterrupt
    ∧ (post_handler exWorkerCM "concept-map"
        (Except.error (PyExc.exc "boom")) exHeld).2.store.done
        = exHeld.store.done
          ++ [Json.obj [("job_id", Json.str "j1"),
              ("error", Json.str (pyStr (PyExc.exc "boom")))]] :=
  ⟨rfl, by decide, by decide,
    (c6_error_path_reports_and_cleans exWorkerCM "concept-map"
      (PyExc.exc "boom") exHeld "j1" rfl (by decide) (by decide)).2.1⟩

/-- Claim C8 (counterexample): a claim of job j1 whose lock is overwritten
by worker w2 during the handler call ends the iteration on the LockLost
path and returns to the top of the loop with self.job_id still set to j1,
not absent. -/
theorem c8_counterexample :
    ((loop_iter exWorkerCM (lock_steal "w2" "j1") (init_wstate exStoreCM)).map
        (fun r => (r.1, r.2.job_id)) = some (Outcome.lockLost, some "j1"))
    ∧ some "j1" ≠ (none : Option String) := by
  decide

/-- Claim C8 (amended): the current JobID is absent at the Idle point after
the success path and after the handler-error path; the LockLost path
instead leaves it holding the lost jobs identifier (see the
counterexample) until the next claim overwrites it. -/
theorem c8_idle_job_id_cleared (w : Worker) (pipeline : String)
    (hres : Except PyExc Json) (st : WState)
    (h : (post_handler w pipeline hres st).1 = Outcome.reported
        ∨ (post_handler w pipeline hres st).1 = Outcome.errored) :
    (post_handler w pipeline hres st).2.job_id = none := by
  unfold post_handler at h ⊢
  cases hd : dispatch_result w hres st with
  | ok r => simp [except_dispatch, log_put, clean_up_job_id]
  | error e =>
    rw [hd] at h
    cases e with
    | lockError => simp [except_dispatch] at h
    | keyboardInterrupt => simp [except_dispatch] at h
    | assertionError => simp [except_dispatch, log_put, clean_up_job_id]
    | exc msg => simp [except_dispatch, log_put, clean_up_job_id]

/-- Witness for the amended C8 on a concrete success run. -/
theorem c8_idle_job_id_cleared_witness :
    (post_handler exWorkerCM "concept-map" (Except.ok Json.null) exHeld).1
        = Outcome.reported
    ∧ (post_handler exWorkerCM "concept-map" (Except.ok Json.null)
        exHeld).2.job_id = none :=
  ⟨by decide,
    c8_idle_job_id_cleared exWorkerCM "concept-map" (Except.ok Json.null)
      exHeld (Or.inl (by decide))⟩

/-- Projecting the message field out of a serialized log record recovers
the drained message. -/
theorem jsonGet_log_record_message (wid : String) (jid : Option String)
    (ts m : String) :
    jsonGet (log_record wid jid ts m) "message" = some (Json.str m) := rfl

/-- Claim C9: a drain of the in-process queue by the log thread appends one
record per enqueued message to the log stream, in enqueue order — the
projection of the resulting stream onto message fields is the old stream
followed by the drained messages in their original order, so no message is
dropped and FIFO order is preserved. -/
theorem c9_log_drain_fifo (wid : String) (ctx : Nat → Option String × String)
    (i : Nat) (msgs : List String) (log : List Json) :
    (log_generator_run wid ctx i msgs log).map (fun r => jsonGet r "message")
      = log.map (fun r => jsonGet r "message")
        ++ msgs.map (fun m => some (Json.str m)) := by
  induction msgs generalizing i log with
  | nil => simp [log_generator_run]
  | cons m rest ih =>
    simp [log_generator_run, ih, jsonGet_log_record_message]

/-- Claim C10: on the success path the completion message is formatted only
after clean_up has reset self.job_id, so the enqueued message interpolates
the absent value — it reads job None — and not the identifier of the job
that just finished (which the interpolation would have produced had the
JobID still been set). -/
theorem c10_completion_log_interpolates_none (w : Worker) (pipeline : String)
    (r : Json) (st : WState) (j : String)
    (hj : st.job_id = some j) (hl : st.store.locks j = some w.worker_id) :
    (post_handler w pipeline (Except.ok r) st).2.log_queue
      = st.log_queue
        ++ ["CourseMapper Worker: Finished processing concept-map job "
            ++ pyStrOpt none]
    ∧ pyStrOpt none = "None"
    ∧ pyStrOpt (some j) = j := by
  have hd := dispatch_result_ok w r st j hj hl
  refine ⟨?_, rfl, rfl⟩
  simp [post_handler, hd, except_dispatch, send_result, clean_up, log_put, hj]

/-- Witness for C10 on the concrete held state. -/
theorem c10_completion_log_interpolates_none_witness :
    exHeld.job_id = some "j1"
    ∧ exHeld.store.locks "j1" = some exWorkerCM.worker_id
    ∧ (post_handler exWorkerCM "concept-map" (Except.ok Json.null)
          exHeld).2.log_queue
        = exHeld.log_queue
          ++ ["CourseMapper Worker: Finished processing concept-map job "
              ++ pyStrOpt none] :=
  ⟨rfl, rfl,
    (c10_completion_log_interpolates_none exWorkerCM "concept-map" Json.null
      exHeld "j1" rfl rfl).1⟩

end CmWorker
